import Mathlib

/-!
Shallow embedding of `qutebrowser/browser/webengine/webenginetab.py`
(the QtWebEngine tab adapter layer) and proofs about its bookkeeping logic:
scroll-percentage computation, find-in-page state, saved-zoom restoration,
repeated key-press synthesis, element lookup preconditions and the
history-trigger handler.  Numeric arithmetic of the source is modelled
exactly over ℚ/ℤ; Python `round` is modelled as round-half-to-even.
-/

/-- Python built-in `round` on an exact value: round half to even. -/
def pyround (q : ℚ) : ℤ :=
  let n := ⌊q⌋
  let f := q - n
  if f < 1/2 then n
  else if 1/2 < f then n + 1
  else if n % 2 = 0 then n else n + 1

namespace WebEngineScroller

/-- The geometry snapshot `jsret` delivered to `update_pos_cb`:
pixel position, scroll extent and inner (viewport) extent per axis. -/
structure ScrollSnapshot where
  px_x : ℤ
  px_y : ℤ
  scroll_width : ℤ
  scroll_height : ℤ
  inner_width : ℤ
  inner_height : ℤ
deriving DecidableEq, Repr

/-- One axis of `update_pos_cb`:
`if d == 0: perc = 0 else: perc = min(100, round(100 / d * pos))`. -/
def axis_perc (d pos : ℤ) : ℤ :=
  if d = 0 then 0 else min 100 (pyround (100 / (d : ℚ) * pos))

/-- `update_pos_cb` from `WebEngineScroller._update_pos`: computes
`(_pos_perc, _at_bottom)` from a geometry snapshot; `_at_bottom` is
`dy >= jsret.px.y`. -/
def update_pos_cb (j : ScrollSnapshot) : (ℤ × ℤ) × Bool :=
  let dx := j.scroll_width - j.inner_width
  let perc_x := axis_perc dx j.px_x
  let dy := j.scroll_height - j.inner_height
  let perc_y := axis_perc dy j.px_y
  ((perc_x, perc_y), decide (j.px_y ≤ dy))

end WebEngineScroller

namespace WebEngineSearch

/-- The two `QWebEnginePage.FindFlag` bits used by the adapter:
`FindCaseSensitively` and `FindBackward`. -/
structure FindFlags where
  caseSensitive : Bool
  backward : Bool
deriving DecidableEq, Repr

/-- `QWebEnginePage.FindFlags(0)`: no flag set. -/
def FindFlags.zero : FindFlags := ⟨false, false⟩

/-- The adapter's mutable state: `self.text`, `self._flags`,
`self.search_displayed`. -/
structure SearchState where
  text : List Char
  flags : FindFlags
  search_displayed : Bool
deriving DecidableEq, Repr

/-- One `findText` call issued to the engine widget. -/
structure FindCall where
  text : List Char
  flags : FindFlags
deriving DecidableEq, Repr

/-- The `ignore_case` argument of `search`: Python `True`, `False`, or
the string `'smart'`. -/
inductive IgnoreCase
  | yes
  | no
  | smart
deriving DecidableEq, Repr

/-- Python `str.islower()` (over the ASCII-cased characters this code
meets): all cased characters are lowercase and at least one cased
character exists. -/
def pyIslower (s : List Char) : Bool :=
  s.all (fun c => !c.isUpper) && s.any (fun c => c.isLower)

/-- `WebEngineSearch._find`: sets `search_displayed = True`, then calls
`findText(text, flags, wrapped_callback)` on the widget. -/
def find (s : SearchState) (text : List Char) (flags : FindFlags) :
    SearchState × FindCall :=
  ({ s with search_displayed := true }, ⟨text, flags⟩)

/-- `WebEngineSearch.search`: builds the flags from `ignore_case` and
`reverse`, stores `text` and `_flags`, then calls `_find`. -/
def search (s : SearchState) (text : List Char) (ignore_case : IgnoreCase)
    (reverse : Bool) : SearchState × FindCall :=
  let cs : Bool :=
    match ignore_case with
    | .smart => !(pyIslower text)
    | .no => true
    | .yes => false
  let flags : FindFlags := ⟨cs, reverse⟩
  find { s with text := text, flags := flags } text flags

/-- `WebEngineSearch.clear`: sets `search_displayed = False` and issues
`findText('')` with default (zero) flags, not via `_find`. -/
def clear (s : SearchState) : SearchState × FindCall :=
  ({ s with search_displayed := false }, ⟨[], FindFlags.zero⟩)

/-- `WebEngineSearch.prev_result`: toggles `FindBackward` on a copy of
the stored flags and calls `_find` with the stored text. -/
def prev_result (s : SearchState) : SearchState × FindCall :=
  let flags := { s.flags with backward := !s.flags.backward }
  find s s.text flags

/-- `WebEngineSearch.next_result`: calls `_find` with the stored text and
stored flags. -/
def next_result (s : SearchState) : SearchState × FindCall :=
  find s s.text s.flags

/-- A `prev_result`/`next_result` call in a sequence. -/
inductive NavOp
  | prev
  | next
deriving DecidableEq, Repr

/-- State effect of one `prev_result`/`next_result` call. -/
def navStep (s : SearchState) : NavOp → SearchState
  | .prev => (prev_result s).1
  | .next => (next_result s).1

/-- State after a whole sequence of `prev_result`/`next_result` calls. -/
def navRun (s : SearchState) (ops : List NavOp) : SearchState :=
  ops.foldl navStep s

end WebEngineSearch

namespace WebEngineTab

/-- The zoom-relevant part of `WebEngineTab`: `self._saved_zoom` and the
widget's current zoom factor. -/
structure ZoomState where
  saved_zoom : Option ℚ
  zoom_factor : ℚ
deriving DecidableEq, Repr

/-- `WebEngineTab._restore_zoom` (a `loadFinished` slot): if
`_saved_zoom` is `None` return unchanged, otherwise set the zoom factor
to it and reset `_saved_zoom` to `None`. -/
def restore_zoom (s : ZoomState) : ZoomState :=
  match s.saved_zoom with
  | none => s
  | some z => { saved_zoom := none, zoom_factor := z }

/-- Zoom effect of `WebEngineTab.openurl`: `self._saved_zoom =
self.zoom.factor()` before loading the URL. -/
def openurl (s : ZoomState) : ZoomState :=
  { s with saved_zoom := some s.zoom_factor }

/-- The keys the scroller sends. -/
inductive Key
  | up
  | down
  | left
  | right
  | pageUp
  | pageDown
deriving DecidableEq, Repr

/-- A synthetic key event: `QEvent.KeyPress` or `QEvent.KeyRelease`. -/
inductive KeyEvent
  | press (key : Key)
  | release (key : Key)
deriving DecidableEq, Repr

/-- `WebEngineTab.key_press`: sends one press event and one release
event for the key. -/
def key_press (key : Key) : List KeyEvent :=
  [.press key, .release key]

end WebEngineTab

namespace WebEngineScroller

open WebEngineTab

/-- `WebEngineScroller._repeated_key_press`: sends `key_press` to the tab
`min(count, 5000)` times. -/
def repeated_key_press (key : Key) (count : ℕ) : List KeyEvent :=
  (List.replicate (min count 5000) (key_press key)).flatten

/-- `WebEngineScroller.up`. -/
def scroll_up (count : ℕ) : List KeyEvent := repeated_key_press .up count

/-- `WebEngineScroller.down`. -/
def scroll_down (count : ℕ) : List KeyEvent := repeated_key_press .down count

/-- `WebEngineScroller.left`. -/
def scroll_left (count : ℕ) : List KeyEvent := repeated_key_press .left count

/-- `WebEngineScroller.right`. -/
def scroll_right (count : ℕ) : List KeyEvent := repeated_key_press .right count

/-- `WebEngineScroller.page_up`. -/
def scroll_page_up (count : ℕ) : List KeyEvent :=
  repeated_key_press .pageUp count

/-- `WebEngineScroller.page_down`. -/
def scroll_page_down (count : ℕ) : List KeyEvent :=
  repeated_key_press .pageDown count

/-- Number of `KeyPress` events in an event list. -/
def countPress (l : List KeyEvent) : ℕ :=
  l.countP (fun e => match e with | .press _ => true | .release _ => false)

/-- Number of `KeyRelease` events in an event list. -/
def countRelease (l : List KeyEvent) : ℕ :=
  l.countP (fun e => match e with | .press _ => false | .release _ => true)

end WebEngineScroller

namespace WebEngineElements

/-- Qt `qRound`: round to nearest, halves away from zero
(`d >= 0 ? int(d + 0.5) : int(d - 0.5)`, `int` truncating toward zero). -/
def qRound (q : ℚ) : ℤ :=
  if 0 ≤ q then ⌊q + 1/2⌋ else ⌈q - 1/2⌉

/-- Outcome of `WebEngineElements.find_at_pos`: either the `assert`
fails before anything else happens, or one JS `find_at_pos` query is
issued at the zoom-divided coordinates. -/
inductive FindAtPosResult
  | assertError
  | jsQuery (x y : ℤ)
deriving DecidableEq, Repr

/-- `WebEngineElements.find_at_pos`: asserts `pos.x() >= 0` and
`pos.y() >= 0`, then divides the `QPoint` by the current zoom factor
(Qt rounds each integer coordinate with `qRound`) and issues the JS
query with the resulting coordinates. -/
def find_at_pos (x y : ℤ) (zoom : ℚ) : FindAtPosResult :=
  if x < 0 then .assertError
  else if y < 0 then .assertError
  else .jsQuery (qRound ((x : ℚ) / zoom)) (qRound ((y : ℚ) / zoom))

end WebEngineElements

namespace WebEngineTab

/-- The part of a `QUrl` that `_on_history_trigger` inspects: validity
and the display string after `setScheme('')` and
`toDisplayString(QUrl.RemoveScheme)`. -/
structure UrlModel where
  valid : Bool
  display_no_scheme : List Char
deriving DecidableEq, Repr

/-- Python `str.strip('/')`: drop `'/'` characters from both ends. -/
def pyStripSlashes (s : List Char) : List Char :=
  ((s.dropWhile (fun c => c = '/')).reverse.dropWhile (fun c => c = '/')).reverse

/-- One `add_history_item` emission: `(url, requested_url, title)`. -/
structure HistoryItem where
  url : UrlModel
  requested_url : UrlModel
  title : List Char
deriving DecidableEq, Repr

/-- `WebEngineTab._on_history_trigger` (a `loadFinished` slot): blanks
the title when it equals the URL's scheme-stripped display string
stripped of slashes, returns without emitting when the URL is invalid,
and otherwise emits `add_history_item(url, requested_url, title)`. -/
def on_history_trigger (url requested_url : UrlModel) (title : List Char) :
    Option HistoryItem :=
  let title' := if title = pyStripSlashes url.display_no_scheme then [] else title
  if url.valid = false then none
  else some ⟨url, requested_url, title'⟩

end WebEngineTab

/-! ## Helper lemmas -/

lemma pyround_nonneg (q : ℚ) (h : 0 ≤ q) : 0 ≤ pyround q := by
  have hf : (0:ℤ) ≤ ⌊q⌋ := Int.floor_nonneg.mpr h
  unfold pyround
  dsimp only
  split
  · exact hf
  · split
    · omega
    · split <;> omega

lemma axis_perc_le_100 (d pos : ℤ) :
    WebEngineScroller.axis_perc d pos ≤ 100 := by
  unfold WebEngineScroller.axis_perc
  by_cases h : d = 0
  · simp [h]
  · simp only [if_neg h]
    exact min_le_left _ _

lemma axis_perc_bounds (d pos : ℤ) (hd : 0 ≤ d) (hp : 0 ≤ pos) :
    0 ≤ WebEngineScroller.axis_perc d pos ∧
    WebEngineScroller.axis_perc d pos ≤ 100 := by
  unfold WebEngineScroller.axis_perc
  by_cases h : d = 0
  · simp [h]
  · have hdpos : (0:ℚ) < (d:ℚ) := by
      have : 0 < d := lt_of_le_of_ne hd (Ne.symm h)
      exact_mod_cast this
    have hq : (0:ℚ) ≤ 100 / (d:ℚ) * pos := by
      apply mul_nonneg
      · positivity
      · exact_mod_cast hp
    have hr := pyround_nonneg _ hq
    constructor
    · simp only [if_neg h]
      exact le_min (by norm_num) hr
    · simp only [if_neg h]
      exact min_le_left _ _

/-! ## Claims -/

/-- Claim C1: the scroll-geometry callback computes, per axis,
`perc = min(100, round(100 * pos / (scrollExtent - innerExtent)))`, with
`perc = 0` when `scrollExtent == innerExtent`; on the snapshot
`px=(50,0), scroll=(200,0), inner=(100,0)` the cached percentage is
`(50, 0)` and the at-bottom flag is `true`. -/
theorem claim_C1 :
    (∀ scroll inner pos : ℤ,
        WebEngineScroller.axis_perc (scroll - inner) pos =
          if scroll = inner then 0
          else min 100 (pyround (100 * (pos:ℚ) / ((scroll:ℚ) - (inner:ℚ))))) ∧
    WebEngineScroller.update_pos_cb ⟨50, 0, 200, 0, 100, 0⟩ = ((50, 0), true) := by
  constructor
  · intro scroll inner pos
    by_cases h : scroll = inner
    · have h0 : scroll - inner = 0 := by omega
      simp [WebEngineScroller.axis_perc, h0, h]
    · have h0 : ¬ (scroll - inner = 0) := by omega
      simp only [WebEngineScroller.axis_perc, if_neg h0, if_neg h]
      congr 2
      push_cast
      rw [div_mul_eq_mul_div]
  · norm_num [WebEngineScroller.update_pos_cb, WebEngineScroller.axis_perc, pyround]

/-- Claim C2, counterexample: on the snapshot `px=(50,0), scroll=(100,0),
inner=(200,0)` (inner extent larger than scroll extent) the computed
x-axis percentage is negative, so it does not lie in `[0, 100]`. -/
theorem claim_C2_counterexample :
    (WebEngineScroller.update_pos_cb ⟨50, 0, 100, 0, 200, 0⟩).1.1 < 0 := by
  norm_num [WebEngineScroller.update_pos_cb, WebEngineScroller.axis_perc, pyround]

/-- Claim C2, amended: the computed percentage never exceeds 100 — for
every snapshot, including those with negative positions or an inner
extent above the scroll extent — and it lies in `[0, 100]` whenever the
pixel position is nonnegative and the scroll extent is at least the
inner extent on that axis; the code has no lower clamp, so outside those
conditions the percentage can be negative. -/
theorem claim_C2 (j : WebEngineScroller.ScrollSnapshot) :
    ((WebEngineScroller.update_pos_cb j).1.1 ≤ 100 ∧
      (WebEngineScroller.update_pos_cb j).1.2 ≤ 100) ∧
    (0 ≤ j.px_x → j.inner_width ≤ j.scroll_width →
      0 ≤ (WebEngineScroller.update_pos_cb j).1.1) ∧
    (0 ≤ j.px_y → j.inner_height ≤ j.scroll_height →
      0 ≤ (WebEngineScroller.update_pos_cb j).1.2) := by
  refine ⟨⟨axis_perc_le_100 _ _, axis_perc_le_100 _ _⟩, ?_, ?_⟩
  · intro hx hw
    exact (axis_perc_bounds (j.scroll_width - j.inner_width) j.px_x
      (by omega) hx).1
  · intro hy hh
    exact (axis_perc_bounds (j.scroll_height - j.inner_height) j.px_y
      (by omega) hy).1

/-- Claim C2, witness: the unconditional upper bound and the
hypothesis-guarded lower bound instantiated on the concrete snapshot
`px=(50,0), scroll=(200,0), inner=(100,0)`. -/
theorem claim_C2_witness :
    ((WebEngineScroller.update_pos_cb ⟨50, 0, 200, 0, 100, 0⟩).1.1 ≤ 100 ∧
      (WebEngineScroller.update_pos_cb ⟨50, 0, 200, 0, 100, 0⟩).1.2 ≤ 100) ∧
    (0 ≤ (WebEngineScroller.update_pos_cb ⟨50, 0, 200, 0, 100, 0⟩).1.1) ∧
    (0 ≤ (WebEngineScroller.update_pos_cb ⟨50, 0, 200, 0, 100, 0⟩).1.2) :=
  ⟨(claim_C2 ⟨50, 0, 200, 0, 100, 0⟩).1,
   (claim_C2 ⟨50, 0, 200, 0, 100, 0⟩).2.1 (by norm_num) (by norm_num),
   (claim_C2 ⟨50, 0, 200, 0, 100, 0⟩).2.2 (by norm_num) (by norm_num)⟩

/-- Claim C3, counterexample: calling `search` with empty text goes
through `_find`, which unconditionally sets `search_displayed = True`,
so from the initial state the flag ends up `true`, not `false`. -/
theorem claim_C3_counterexample :
    ¬ ((WebEngineSearch.search ⟨[], WebEngineSearch.FindFlags.zero, false⟩
        [] WebEngineSearch.IgnoreCase.yes false).1.search_displayed = false) := by
  decide

/-- Claim C3, amended: `clear()` always resets `search_displayed` to
`false` regardless of prior state; `search` with the empty string (like
any search) sets it to `true`, because `search` always delegates to
`_find`, which displays the search. -/
theorem claim_C3 (s : WebEngineSearch.SearchState) (text : List Char)
    (ic : WebEngineSearch.IgnoreCase) (rev : Bool) :
    ((WebEngineSearch.clear s).1.search_displayed = false) ∧
    ((WebEngineSearch.search s text ic rev).1.search_displayed = true) := by
  constructor
  · simp [WebEngineSearch.clear]
  · simp [WebEngineSearch.search, WebEngineSearch.find]

/-- Claim C4, counterexample: starting from a post-search state with the
backward flag clear, `next_result` followed by `prev_result` issues the
second engine find with the backward flag set — not with the original
backward-flag state, refuting the "or vice versa" half of the claim. -/
theorem claim_C4_counterexample :
    ¬ ((WebEngineSearch.prev_result
          (WebEngineSearch.next_result
            (WebEngineSearch.search ⟨[], WebEngineSearch.FindFlags.zero, false⟩
              [Char.ofNat 97]
              WebEngineSearch.IgnoreCase.yes false).1).1).2.flags.backward =
        (WebEngineSearch.search ⟨[], WebEngineSearch.FindFlags.zero, false⟩
          [Char.ofNat 97]
          WebEngineSearch.IgnoreCase.yes false).1.flags.backward) := by
  decide

/-- Claim C4, amended: `prev_result` issues the engine find with the
backward flag toggled relative to the stored flags and `next_result`
with the stored flags unchanged; `prev_result` followed by `next_result`
issues the second find with the original backward flag, while in the
reverse order the second find carries the toggled flag; the toggle is
self-inverse and never touches the stored flags, so two consecutive
`prev_result` calls issue identical flags. -/
theorem claim_C4 (s : WebEngineSearch.SearchState) :
    ((WebEngineSearch.prev_result s).2.flags.backward = !s.flags.backward) ∧
    ((WebEngineSearch.next_result s).2.flags.backward = s.flags.backward) ∧
    ((WebEngineSearch.next_result
        (WebEngineSearch.prev_result s).1).2.flags.backward =
      s.flags.backward) ∧
    ((WebEngineSearch.prev_result
        (WebEngineSearch.next_result s).1).2.flags.backward =
      !s.flags.backward) ∧
    ((WebEngineSearch.prev_result
        (WebEngineSearch.prev_result s).1).2.flags =
      (WebEngineSearch.prev_result s).2.flags) := by
  refine ⟨rfl, rfl, rfl, rfl, rfl⟩

/-- Claim C5, counterexample: the query `"123"` contains no uppercase
character, yet a smart-case search issues the engine find with the
case-sensitive flag set, because Python's `"123".islower()` is false
(there is no cased character at all). -/
theorem claim_C5_counterexample :
    ((WebEngineSearch.search ⟨[], WebEngineSearch.FindFlags.zero, false⟩
        [Char.ofNat 49, Char.ofNat 50, Char.ofNat 51]
        WebEngineSearch.IgnoreCase.smart false).2.flags.caseSensitive = true) ∧
    (([Char.ofNat 49, Char.ofNat 50, Char.ofNat 51].any
        (fun c => c.isUpper)) = false) := by
  decide

/-- Claim C5, amended: with `ignore_case == 'smart'` the case-sensitive
flag is set exactly when the text is not all-lowercase in Python's
`str.islower()` sense (so also for caseless queries such as digits, not
only when an uppercase character is present); a query containing an
uppercase character is always issued case-sensitively; with
`ignore_case` false the flag is always set and with `ignore_case` true
it is never set. -/
theorem claim_C5 (s : WebEngineSearch.SearchState) (text : List Char)
    (rev : Bool) :
    ((WebEngineSearch.search s text WebEngineSearch.IgnoreCase.smart
        rev).2.flags.caseSensitive = !(WebEngineSearch.pyIslower text)) ∧
    (text.any (fun c => c.isUpper) = true →
      (WebEngineSearch.search s text WebEngineSearch.IgnoreCase.smart
        rev).2.flags.caseSensitive = true) ∧
    ((WebEngineSearch.search s text WebEngineSearch.IgnoreCase.no
        rev).2.flags.caseSensitive = true) ∧
    ((WebEngineSearch.search s text WebEngineSearch.IgnoreCase.yes
        rev).2.flags.caseSensitive = false) := by
  refine ⟨rfl, ?_, rfl, rfl⟩
  intro h
  rcases List.any_eq_true.mp h with ⟨c, hc, hcu⟩
  have hall : text.all (fun c => !c.isUpper) = false := by
    apply Bool.eq_false_iff.mpr
    intro hall
    have := List.all_eq_true.mp hall c hc
    simp [hcu] at this
  have hpf : WebEngineSearch.pyIslower text = false := by
    unfold WebEngineSearch.pyIslower
    rw [hall]
    rfl
  show (!(WebEngineSearch.pyIslower text)) = true
  rw [hpf]
  rfl

/-- Claim C5, witness: smart case on the all-lowercase query `"ab"`
leaves the case-sensitive flag clear, and on `"Ab"` (which has an
uppercase character) sets it. -/
theorem claim_C5_witness :
    ((WebEngineSearch.search ⟨[], WebEngineSearch.FindFlags.zero, false⟩
        [Char.ofNat 97, Char.ofNat 98]
        WebEngineSearch.IgnoreCase.smart false).2.flags.caseSensitive = false) ∧
    ((WebEngineSearch.search ⟨[], WebEngineSearch.FindFlags.zero, false⟩
        [Char.ofNat 65, Char.ofNat 98]
        WebEngineSearch.IgnoreCase.smart false).2.flags.caseSensitive = true) := by
  constructor
  · have h := (claim_C5 ⟨[], WebEngineSearch.FindFlags.zero, false⟩
      [Char.ofNat 97, Char.ofNat 98] false).1
    rw [h]
    decide
  · exact (claim_C5 ⟨[], WebEngineSearch.FindFlags.zero, false⟩
      [Char.ofNat 65, Char.ofNat 98] false).2.1 (by decide)

/-- Claim C6: `_restore_zoom` consumes the saved zoom factor exactly
once. After `openurl` saved the factor, the first load-finished
notification restores it and clears the saved slot, and `_restore_zoom`
is idempotent, so a second consecutive load-finished notification (no
intervening `openurl`) leaves the zoom state unchanged. -/
theorem claim_C6 (s : WebEngineTab.ZoomState) :
    ((WebEngineTab.restore_zoom (WebEngineTab.openurl s)).zoom_factor =
      s.zoom_factor) ∧
    ((WebEngineTab.restore_zoom (WebEngineTab.openurl s)).saved_zoom = none) ∧
    (∀ t : WebEngineTab.ZoomState,
      WebEngineTab.restore_zoom (WebEngineTab.restore_zoom t) =
        WebEngineTab.restore_zoom t) := by
  refine ⟨rfl, rfl, ?_⟩
  intro t
  cases h : t.saved_zoom <;> simp [WebEngineTab.restore_zoom, h]

lemma countPress_flatten (k : WebEngineTab.Key) (m : ℕ) :
    WebEngineScroller.countPress
      (List.replicate m (WebEngineTab.key_press k)).flatten = m := by
  induction m with
  | zero => rfl
  | succ n ih =>
    simp only [List.replicate_succ, List.flatten_cons]
    unfold WebEngineScroller.countPress at ih ⊢
    rw [List.countP_append, ih]
    have h1 : List.countP
        (fun e => match e with
          | WebEngineTab.KeyEvent.press _ => true
          | WebEngineTab.KeyEvent.release _ => false)
        (WebEngineTab.key_press k) = 1 := rfl
    omega

lemma countRelease_flatten (k : WebEngineTab.Key) (m : ℕ) :
    WebEngineScroller.countRelease
      (List.replicate m (WebEngineTab.key_press k)).flatten = m := by
  induction m with
  | zero => rfl
  | succ n ih =>
    simp only [List.replicate_succ, List.flatten_cons]
    unfold WebEngineScroller.countRelease at ih ⊢
    rw [List.countP_append, ih]
    have h1 : List.countP
        (fun e => match e with
          | WebEngineTab.KeyEvent.press _ => false
          | WebEngineTab.KeyEvent.release _ => true)
        (WebEngineTab.key_press k) = 1 := rfl
    omega

/-- Claim C7: each directional scroll method delegates to
`_repeated_key_press`, which sends exactly `min(count, 5000)`
press/release event pairs; in particular for `count > 5000` exactly 5000
pairs are issued. -/
theorem claim_C7 (n : ℕ) :
    (∀ k, WebEngineScroller.countPress
            (WebEngineScroller.repeated_key_press k n) = min n 5000 ∧
          WebEngineScroller.countRelease
            (WebEngineScroller.repeated_key_press k n) = min n 5000) ∧
    (WebEngineScroller.scroll_up n =
      WebEngineScroller.repeated_key_press WebEngineTab.Key.up n) ∧
    (WebEngineScroller.scroll_down n =
      WebEngineScroller.repeated_key_press WebEngineTab.Key.down n) ∧
    (WebEngineScroller.scroll_left n =
      WebEngineScroller.repeated_key_press WebEngineTab.Key.left n) ∧
    (WebEngineScroller.scroll_right n =
      WebEngineScroller.repeated_key_press WebEngineTab.Key.right n) ∧
    (WebEngineScroller.scroll_page_up n =
      WebEngineScroller.repeated_key_press WebEngineTab.Key.pageUp n) ∧
    (WebEngineScroller.scroll_page_down n =
      WebEngineScroller.repeated_key_press WebEngineTab.Key.pageDown n) ∧
    (5000 < n → ∀ k,
      WebEngineScroller.countPress
        (WebEngineScroller.repeated_key_press k n) = 5000 ∧
      WebEngineScroller.countRelease
        (WebEngineScroller.repeated_key_press k n) = 5000) := by
  have hcount : ∀ k, WebEngineScroller.countPress
        (WebEngineScroller.repeated_key_press k n) = min n 5000 ∧
      WebEngineScroller.countRelease
        (WebEngineScroller.repeated_key_press k n) = min n 5000 := by
    intro k
    unfold WebEngineScroller.repeated_key_press
    exact ⟨countPress_flatten k (min n 5000), countRelease_flatten k (min n 5000)⟩
  refine ⟨hcount, rfl, rfl, rfl, rfl, rfl, rfl, ?_⟩
  intro hn k
  have hmin : min n 5000 = 5000 := by omega
  rw [(hcount k).1, (hcount k).2, hmin]
  exact ⟨rfl, rfl⟩

/-- Claim C7, witness: a directional scroll with repeat count 6000 sends
exactly 5000 press/release pairs. -/
theorem claim_C7_witness :
    WebEngineScroller.countPress
      (WebEngineScroller.repeated_key_press WebEngineTab.Key.down 6000) = 5000 ∧
    WebEngineScroller.countRelease
      (WebEngineScroller.repeated_key_press WebEngineTab.Key.down 6000) = 5000 :=
  (claim_C7 6000).2.2.2.2.2.2.2 (by norm_num) WebEngineTab.Key.down

/-- Claim C8: `find_at_pos` with a negative coordinate fails on its
`assert` before any JS query is issued (the result carries no query);
with nonnegative coordinates it issues the JS query at the point divided
by the current zoom factor (Qt's integer `QPoint` division, which
rounds each coordinate); in particular the point `(-1, 5)` yields the
precondition failure. -/
theorem claim_C8 (x y : ℤ) (zoom : ℚ) :
    (x < 0 ∨ y < 0 →
      WebEngineElements.find_at_pos x y zoom =
        WebEngineElements.FindAtPosResult.assertError) ∧
    (0 ≤ x → 0 ≤ y →
      WebEngineElements.find_at_pos x y zoom =
        WebEngineElements.FindAtPosResult.jsQuery
          (WebEngineElements.qRound ((x:ℚ) / zoom))
          (WebEngineElements.qRound ((y:ℚ) / zoom))) ∧
    (WebEngineElements.find_at_pos (-1) 5 zoom =
      WebEngineElements.FindAtPosResult.assertError) := by
  refine ⟨?_, ?_, ?_⟩
  · intro h
    unfold WebEngineElements.find_at_pos
    rcases h with h | h
    · rw [if_pos h]
    · by_cases hx : x < 0
      · rw [if_pos hx]
      · rw [if_neg hx, if_pos h]
  · intro hx hy
    unfold WebEngineElements.find_at_pos
    rw [if_neg (by omega), if_neg (by omega)]
  · unfold WebEngineElements.find_at_pos
    norm_num

/-- Claim C8, witness: the theorem instantiated at the points `(-1, 5)`
and `(4, 6)` with zoom factor 2. -/
theorem claim_C8_witness :
    (WebEngineElements.find_at_pos (-1) 5 2 =
      WebEngineElements.FindAtPosResult.assertError) ∧
    (WebEngineElements.find_at_pos 4 6 2 =
      WebEngineElements.FindAtPosResult.jsQuery
        (WebEngineElements.qRound (((4:ℤ):ℚ) / 2))
        (WebEngineElements.qRound (((6:ℤ):ℚ) / 2))) :=
  ⟨(claim_C8 (-1) 5 2).1 (Or.inl (by norm_num)),
   (claim_C8 4 6 2).2.1 (by norm_num) (by norm_num)⟩

/-- Claim C9, counterexample: with a valid URL whose scheme-stripped
display string equals the page title, the handler still emits a history
entry (with a blanked title) — it does not skip the append as the claim
states. -/
theorem claim_C9_counterexample :
    WebEngineTab.on_history_trigger
      ⟨true, [Char.ofNat 101, Char.ofNat 120]⟩
      ⟨true, [Char.ofNat 101, Char.ofNat 120]⟩
      [Char.ofNat 101, Char.ofNat 120] ≠ none := by
  decide

/-- Claim C9, amended: on a load-finished notification a history-entry
append is emitted unless the URL is invalid; when the title equals the
URL's scheme-stripped display string stripped of slashes
(title indistinguishable from the URL), the entry is still emitted but
with an empty title. -/
theorem claim_C9 (url requested_url : WebEngineTab.UrlModel)
    (title : List Char) :
    (url.valid = false →
      WebEngineTab.on_history_trigger url requested_url title = none) ∧
    (url.valid = true →
      WebEngineTab.on_history_trigger url requested_url title =
        some ⟨url, requested_url,
          if title = WebEngineTab.pyStripSlashes url.display_no_scheme
          then [] else title⟩) := by
  constructor
  · intro h
    unfold WebEngineTab.on_history_trigger
    rw [h]
    rfl
  · intro h
    unfold WebEngineTab.on_history_trigger
    rw [h]
    rfl

/-- Claim C9, witness: the amended behaviour at an invalid URL and at a
concrete valid URL. -/
theorem claim_C9_witness :
    (WebEngineTab.on_history_trigger ⟨false, []⟩ ⟨false, []⟩
      [Char.ofNat 116] = none) ∧
    (WebEngineTab.on_history_trigger ⟨true, [Char.ofNat 101]⟩
      ⟨true, [Char.ofNat 101]⟩ [Char.ofNat 116] =
        some ⟨⟨true, [Char.ofNat 101]⟩, ⟨true, [Char.ofNat 101]⟩,
          if [Char.ofNat 116] =
              WebEngineTab.pyStripSlashes [Char.ofNat 101]
          then [] else [Char.ofNat 116]⟩) :=
  ⟨(claim_C9 ⟨false, []⟩ ⟨false, []⟩ [Char.ofNat 116]).1 rfl,
   (claim_C9 ⟨true, [Char.ofNat 101]⟩ ⟨true, [Char.ofNat 101]⟩
     [Char.ofNat 116]).2 rfl⟩

lemma navRun_preserves (ops : List WebEngineSearch.NavOp)
    (s : WebEngineSearch.SearchState) :
    (WebEngineSearch.navRun s ops).text = s.text ∧
    (WebEngineSearch.navRun s ops).flags = s.flags := by
  induction ops generalizing s with
  | nil => exact ⟨rfl, rfl⟩
  | cons op ops ih =>
    have hstep : (WebEngineSearch.navStep s op).text = s.text ∧
        (WebEngineSearch.navStep s op).flags = s.flags := by
      cases op <;>
        simp [WebEngineSearch.navStep, WebEngineSearch.prev_result,
          WebEngineSearch.next_result, WebEngineSearch.find]
    have hrest := ih (WebEngineSearch.navStep s op)
    have hrun : WebEngineSearch.navRun s (op :: ops) =
        WebEngineSearch.navRun (WebEngineSearch.navStep s op) ops := rfl
    rw [hrun]
    exact ⟨hrest.1.trans hstep.1, hrest.2.trans hstep.2⟩

/-- Claim C10: `prev_result` and `next_result` never modify the stored
search text or stored find flags — after a `search`, any sequence of
`prev_result`/`next_result` calls leaves the stored text equal to the
searched text and the stored flags equal to those the search computed
(`prev_result` only toggles the backward flag on a copy used for its one
engine call). -/
theorem claim_C10 (s : WebEngineSearch.SearchState) (text : List Char)
    (ic : WebEngineSearch.IgnoreCase) (rev : Bool)
    (ops : List WebEngineSearch.NavOp) :
    ((WebEngineSearch.navRun (WebEngineSearch.search s text ic rev).1 ops).text
      = text) ∧
    ((WebEngineSearch.navRun (WebEngineSearch.search s text ic rev).1 ops).flags
      = (WebEngineSearch.search s text ic rev).1.flags) := by
  have h := navRun_preserves ops (WebEngineSearch.search s text ic rev).1
  exact ⟨h.1, h.2⟩
